import Mathlib

/-!
Verification of the student-manager session store.

The repository contains several revisions of a zustand-based store:
  - `src/store.ts` — the main revision (guard, auth, schools, authoritative-replace
    mutations, cache-replacing `fetch`);
  - `src/unnamed/part_000`, second document — the most advanced revision, adding
    optimistic mutations with a per-call `immediate` flag;
  - `src/src/stores/classStore.tsx` — the earliest revision (no auth, merging `fetch`).

This file shallowly embeds the state shape and the store operations the claims
touch, and proves / refutes the spec's claims about them.
-/

namespace StudentManager

/-- Modelled from the spec: the ActivityScore entity ("identifier plus numeric
score"); its interface file (`models/activityScore.ts`) is not present under
`src/`, only its uses in the store and in `StudentPerformance`. -/
structure ActivityScore where
  id : Nat
  score : Int
deriving DecidableEq, Repr

/-- The Student entity, from `src/models/student.ts` (the optional back-reference
`class?: Class` is dropped: it would make the record types mutually recursive and
no store operation reads it). -/
structure Student where
  id : Nat
  firstName : String
  lastName : String
deriving DecidableEq, Repr

/-- Modelled from the spec: the School entity ("identifier plus descriptive
fields"); its interface file (`models/school.ts`) is not present under `src/`. -/
structure School where
  id : Nat
  name : String
deriving DecidableEq, Repr

/-- The StudentPerformance entity, from `src/unnamed/part_001`
(`models/studentPerformance.ts`). Optional fields become `Option`;
the three counters are `Option Int` ("either fully absent or numeric"). -/
structure StudentPerformance where
  id : Nat
  studentId : String
  classId : Nat
  student : Student
  activityScores : Option (List ActivityScore)
  activityPoints : Option Int
  missingHomeworks : Option Int
  loudnessWarnings : Option Int
deriving DecidableEq, Repr

/-- The Class entity, from the class interface embedded in `src/models/student.ts`
(second document, `models/class.ts`). -/
structure Class where
  id : Nat
  schoolYear : Int
  label : String
  school : School
  students : Option (List Student)
  studentsPerformance : Option (List StudentPerformance)
deriving DecidableEq, Repr

/-- Lookup in a JS `Record<number, α>`, modelled as an association list. -/
def recLookup {α : Type} (m : List (Nat × α)) (k : Nat) : Option α :=
  match m with
  | [] => none
  | (k1, v) :: rest => if k1 = k then some v else recLookup rest k

/-- Key assignment `m[k] = v` in a JS `Record<number, α>`: overwrites the entry
in place when the key exists, appends otherwise. -/
def recInsert {α : Type} (m : List (Nat × α)) (k : Nat) (v : α) : List (Nat × α) :=
  match m with
  | [] => [(k, v)]
  | (k1, v1) :: rest => if k1 = k then (k, v) :: rest else (k1, v1) :: recInsert rest k v

/-- The `Authorization` default header of the axios transport
(`axios.defaults.headers.common`): unset initially, set to the literal `false`
by `logout`, or to a bearer string by `updateToken`. -/
inductive AuthHeader where
  | unset
  | disabled
  | bearer (token : String)
deriving DecidableEq, Repr

/-- The store state (the data fields of the `Store` interface in `src/store.ts`,
plus `isOperationLoading` which only the advanced revision
`src/unnamed/part_000` declares, plus the axios default header modelled as part
of the state). `isAuthenticated` is optional in the source (`isAuthenticated?:
boolean`), hence `Option Bool`. -/
structure StoreState where
  isAuthenticated : Option Bool
  authToken : Option String
  classes : List (Nat × Class)
  isLoading : Bool
  isInitialized : Bool
  error : Option String
  schoolsEntries : Option (List (Nat × School))
  schoolsOrder : Option (List Nat)
  schoolsIsLoading : Option Bool
  isOperationLoading : Option Bool
  authHeader : AuthHeader
deriving DecidableEq, Repr

/-- The initial state built by `createStore` (`src/store.ts` lines 48-54):
`authToken: undefined`, empty class cache, flags false, `schools: {}`;
`isAuthenticated` and `error` are not initialized (undefined). -/
def initialState : StoreState where
  isAuthenticated := none
  authToken := none
  classes := []
  isLoading := false
  isInitialized := false
  error := none
  schoolsEntries := none
  schoolsOrder := none
  schoolsIsLoading := none
  isOperationLoading := none
  authHeader := AuthHeader.unset

/-- The error response attached to a failed axios request (`e.response`). -/
structure ErrResponse where
  status : Nat
deriving DecidableEq, Repr

/-- A caught request failure: `response` is `none` for non-HTTP errors
(network/transport failures carry no `response`). -/
structure ReqError where
  response : Option ErrResponse
deriving DecidableEq, Repr

/-- The `e?.response?.status` chain used by the guard. -/
def ReqError.statusOf (e : ReqError) : Option Nat :=
  e.response.map ErrResponse.status

/-- The `catch` branch of `guardUnauthorizedRequest` (`src/store.ts` lines
383-398; identical in `src/unnamed/part_000` lines 750-765): when the wrapped
request failed with `e`, set `isAuthenticated := false` iff
`e?.response?.status === 401`, then rethrow `e` unchanged. The result pairs the
state after the catch with the propagated error. -/
def guardUnauthorizedRequestCatch (s : StoreState) (e : ReqError) : StoreState × ReqError :=
  if e.statusOf = some 401 then
    ({ s with isAuthenticated := some false }, e)
  else
    (s, e)

/-- `logout` (`src/store.ts` lines 308-317; identical in `src/unnamed/part_000`
lines 675-684): sets the axios Authorization default header to `false`, the
authentication flag to `false`, and the token to `undefined`. -/
def logout (s : StoreState) : StoreState :=
  { s with
    authHeader := AuthHeader.disabled
    isAuthenticated := some false
    authToken := none }

/-- `updateToken` (`src/store.ts` lines 319-328; identical in
`src/unnamed/part_000` lines 686-695): sets the axios Authorization default
header to `Bearer <token>`, the authentication flag to `true`, and stores the
token. -/
def updateToken (s : StoreState) (token : String) : StoreState :=
  { s with
    authHeader := AuthHeader.bearer token
    isAuthenticated := some true
    authToken := some token }

/-- The success continuation of `fetch` (`src/store.ts` lines 63-76; identical
in `src/unnamed/part_000` lines 349-362): on a successful response carrying the
class list, reset the cache to `{}`, insert every returned class keyed by its
`id`, set `isInitialized := true` and clear the loading flag. -/
def fetchApplyResponse (s : StoreState) (cs : List Class) : StoreState :=
  { s with
    classes := cs.foldl (fun m c => recInsert m c.id c) []
    isInitialized := true
    isLoading := false }

/-- The response handler of `fetchById` (`src/store.ts` lines 93-104; identical
in `src/unnamed/part_000` lines 379-390): a falsy body is a no-op (early
`return`, the loading flag is not cleared there); a truthy body `c` is written
into the cache under the key `id` taken from the call's argument, and the
loading flag is cleared. -/
def fetchByIdApplyResponse (s : StoreState) (id : Nat) (body : Option Class) : StoreState :=
  match body with
  | none => s
  | some c => { s with classes := recInsert s.classes id c, isLoading := false }

/-- `sp.X !== undefined ? sp.X += points` for `activityPoints`: the optimistic
field update of `addActivityPoints` (`src/unnamed/part_000` lines 501-504),
applied only when the counter is already defined. -/
def addPointsFn (points : Int) (sp : StudentPerformance) : StudentPerformance :=
  match sp.activityPoints with
  | some v => { sp with activityPoints := some (v + points) }
  | none => sp

/-- Optimistic field update of `addLoudnessWarning` (`src/unnamed/part_000`
lines 532-535): `sp.loudnessWarnings += 1` when already defined. -/
def addLoudnessFn (sp : StudentPerformance) : StudentPerformance :=
  match sp.loudnessWarnings with
  | some v => { sp with loudnessWarnings := some (v + 1) }
  | none => sp

/-- Optimistic field update of `deleteLastLoudnessWarning`
(`src/unnamed/part_000` lines 561-564): `sp.loudnessWarnings -= 1` when already
defined. -/
def deleteLoudnessFn (sp : StudentPerformance) : StudentPerformance :=
  match sp.loudnessWarnings with
  | some v => { sp with loudnessWarnings := some (v - 1) }
  | none => sp

/-- Optimistic field update of `addMissingHomework` (`src/unnamed/part_000`
lines 590-593): `sp.missingHomeworks += amount` when already defined. -/
def addMissingFn (amount : Int) (sp : StudentPerformance) : StudentPerformance :=
  match sp.missingHomeworks with
  | some v => { sp with missingHomeworks := some (v + amount) }
  | none => sp

/-- Optimistic field update of `deleteLastMissingHomework`
(`src/unnamed/part_000` lines 625-628). The source performs
`sp.missingHomeworks += 1` — an increment, although the sibling
`deleteLastLoudnessWarning` decrements and the action issues an HTTP DELETE;
the embedding reproduces the source faithfully. -/
def deleteMissingFn (sp : StudentPerformance) : StudentPerformance :=
  match sp.missingHomeworks with
  | some v => { sp with missingHomeworks := some (v + 1) }
  | none => sp

/-- Optimistic field update of `deleteActivityScore` (`src/unnamed/part_000`
lines 470-475): `sp.activityScores = sp?.activityScores?.filter(as => as.id !==
id)` — filters when the list is defined, keeps `undefined` otherwise (the
surrounding `if (sp)` guard is the first-match update below). -/
def deleteScoreFn (scoreId : Nat) (sp : StudentPerformance) : StudentPerformance :=
  { sp with activityScores := sp.activityScores.map (List.filter (fun a => a.id != scoreId)) }

/-- Immer mutation of the record returned by
`studentsPerformance.find(sp => sp.id === spId)`: the first element with a
matching `id` is replaced by its image under `f`; all other elements are kept. -/
def updateFirstPerf (l : List StudentPerformance) (spId : Nat)
    (f : StudentPerformance → StudentPerformance) : List StudentPerformance :=
  match l with
  | [] => []
  | sp :: rest => if sp.id == spId then f sp :: rest else sp :: updateFirstPerf rest spId f

/-- `class.studentsPerformance?.find(sp => sp.id === spId)` with the found
record mutated in place by `f` (a no-op when the list is `undefined` or no
record matches). -/
def Class.updatePerf (c : Class) (spId : Nat)
    (f : StudentPerformance → StudentPerformance) : Class :=
  match c.studentsPerformance with
  | none => c
  | some l => { c with studentsPerformance := some (updateFirstPerf l spId f) }

namespace Adv

/-- The shared shape of the `if (immediate) set(produce(...))` block of the
optimistic actions in `src/unnamed/part_000`:
`state.classes[classId].studentsPerformance?.find(sp => sp.id === spId)` is
located and mutated by `f`. When `classId` is not in the cache the source
dereferences `undefined` and the produce recipe throws a `TypeError` before any
state change — modelled as `none` (the action aborts before its network call). -/
def optimisticStep (s : StoreState) (classId spId : Nat)
    (f : StudentPerformance → StudentPerformance) : Option StoreState :=
  match recLookup s.classes classId with
  | none => none
  | some c => some { s with classes := recInsert s.classes classId (c.updatePerf spId f) }

/-- Optimistic (`immediate = true`) branch of `deleteActivityScore`
(`src/unnamed/part_000` lines 466-478). -/
def deleteActivityScoreOptimistic (s : StoreState) (classId spId scoreId : Nat) :
    Option StoreState :=
  optimisticStep s classId spId (deleteScoreFn scoreId)

/-- Optimistic (`immediate = true`) branch of `addActivityPoints`
(`src/unnamed/part_000` lines 497-507). -/
def addActivityPointsOptimistic (s : StoreState) (classId spId : Nat) (points : Int) :
    Option StoreState :=
  optimisticStep s classId spId (addPointsFn points)

/-- Optimistic (`immediate = true`) branch of `addLoudnessWarning`
(`src/unnamed/part_000` lines 528-538). -/
def addLoudnessWarningOptimistic (s : StoreState) (classId spId : Nat) :
    Option StoreState :=
  optimisticStep s classId spId addLoudnessFn

/-- Optimistic (`immediate = true`) branch of `deleteLastLoudnessWarning`
(`src/unnamed/part_000` lines 557-567). -/
def deleteLastLoudnessWarningOptimistic (s : StoreState) (classId spId : Nat) :
    Option StoreState :=
  optimisticStep s classId spId deleteLoudnessFn

/-- Optimistic (`immediate = true`) branch of `addMissingHomework`
(`src/unnamed/part_000` lines 586-596). -/
def addMissingHomeworkOptimistic (s : StoreState) (classId spId : Nat) (amount : Int) :
    Option StoreState :=
  optimisticStep s classId spId (addMissingFn amount)

/-- Optimistic (`immediate = true`) branch of `deleteLastMissingHomework`
(`src/unnamed/part_000` lines 621-631); see `deleteMissingFn` for the
increment performed by the source. -/
def deleteLastMissingHomeworkOptimistic (s : StoreState) (classId spId : Nat) :
    Option StoreState :=
  optimisticStep s classId spId deleteMissingFn

/-- The six mutating actions of `src/unnamed/part_000` that have an
`if (immediate)` optimistic branch, with their call arguments. -/
inductive OptimisticAction where
  | deleteActivityScore (classId spId scoreId : Nat)
  | addActivityPoints (classId spId : Nat) (points : Int)
  | addLoudnessWarning (classId spId : Nat)
  | deleteLastLoudnessWarning (classId spId : Nat)
  | addMissingHomework (classId spId : Nat) (amount : Int)
  | deleteLastMissingHomework (classId spId : Nat)
deriving DecidableEq, Repr

/-- The optimistic (`immediate = true`) mutation each action performs before
its network call. -/
def optimisticMutation : OptimisticAction → StoreState → Option StoreState
  | .deleteActivityScore classId spId scoreId, s =>
      deleteActivityScoreOptimistic s classId spId scoreId
  | .addActivityPoints classId spId points, s =>
      addActivityPointsOptimistic s classId spId points
  | .addLoudnessWarning classId spId, s =>
      addLoudnessWarningOptimistic s classId spId
  | .deleteLastLoudnessWarning classId spId, s =>
      deleteLastLoudnessWarningOptimistic s classId spId
  | .addMissingHomework classId spId amount, s =>
      addMissingHomeworkOptimistic s classId spId amount
  | .deleteLastMissingHomework classId spId, s =>
      deleteLastMissingHomeworkOptimistic s classId spId

/-- A whole optimistic action run with `immediate = true` whose awaited network
call rejects with `e`: the optimistic mutation is applied first; the guard
(`guardUnauthorizedRequest`) catches `e`, performs its 401 demotion, and
rethrows; the action has no surrounding try/catch, so `e` escapes to the
caller. `none` is the `TypeError` path of the optimistic step (the network call
is never issued). -/
def runImmediateFailed (a : OptimisticAction) (s : StoreState) (e : ReqError) :
    Option (StoreState × ReqError) :=
  (optimisticMutation a s).map (fun s1 => guardUnauthorizedRequestCatch s1 e)

/-- `addActivityScore` in `src/unnamed/part_000` (lines 441-464) declares no
`immediate` parameter (the `Store` interface does, line 313, but the
implementation ignores it) and performs no `set()` before awaiting
`axios.post`: the state observable before the response is the input state,
unchanged. -/
def addActivityScorePhase1 (s : StoreState) (classId spId : Nat) (score : Int) : StoreState :=
  s

/-- The success continuation of `addActivityScore` (`src/unnamed/part_000`
lines 448-462): given a truthy response body `d` (the created score entry), the
target performance's list becomes `[...sp.activityScores, d]`, or `[d]` when
the list was undefined. `none` models the `TypeError` thrown when `classId` is
absent from the cache; a missing performance is a silent no-op. -/
def addActivityScoreSuccess (s : StoreState) (classId spId : Nat) (d : ActivityScore) :
    Option StoreState :=
  match recLookup s.classes classId with
  | none => none
  | some c =>
    match c.studentsPerformance.bind (List.find? (fun sp => sp.id == spId)) with
    | none => some s
    | some _ =>
      let appendFn := fun sp =>
        { sp with activityScores := some (sp.activityScores.getD [] ++ [d]) }
      some { s with classes := recInsert s.classes classId (c.updatePerf spId appendFn) }

end Adv

namespace CS

/-- The state of the earliest revision's `ClassStore`
(`src/src/stores/classStore.tsx` lines 7-11): no auth, no schools. -/
structure State where
  classes : List (Nat × Class)
  isLoading : Bool
  isInitialized : Bool
deriving DecidableEq, Repr

/-- The success continuation of `fetch` in `src/src/stores/classStore.tsx`
(lines 30-44): unlike `src/store.ts`, the recipe does NOT reset
`state.classes` before inserting — returned classes are merged into the
existing map. -/
def fetchApplyResponse (s : State) (cs : List Class) : State :=
  { s with
    classes := cs.foldl (fun m c => recInsert m c.id c) s.classes
    isInitialized := true
    isLoading := false }

end CS

/-- The performance record located by the store's optimistic blocks:
`state.classes[k].studentsPerformance?.find(sp => sp.id === spId)`
(`none` when the class, the list, or the record is missing). -/
def perfIn (s : StoreState) (k spId : Nat) : Option StudentPerformance :=
  (recLookup s.classes k).bind fun c =>
    c.studentsPerformance.bind (List.find? (fun sp => sp.id == spId))

/-- The performance record at list index `i` of class `k`. -/
def perfAtIdx (s : StoreState) (k i : Nat) : Option StudentPerformance :=
  (recLookup s.classes k).bind fun c =>
    c.studentsPerformance.bind fun l => l[i]?

/-- The `activityPoints` counter of the located performance (flattened). -/
def pointsAt (s : StoreState) (k spId : Nat) : Option Int :=
  (perfIn s k spId).bind StudentPerformance.activityPoints

/-- The `missingHomeworks` counter of the located performance (flattened). -/
def missingAt (s : StoreState) (k spId : Nat) : Option Int :=
  (perfIn s k spId).bind StudentPerformance.missingHomeworks

/-- The activity-score list of the located performance (flattened). -/
def scoresListAt (s : StoreState) (k spId : Nat) : Option (List ActivityScore) :=
  (perfIn s k spId).bind StudentPerformance.activityScores

/-- The length of the located performance's activity-score list (an undefined
list counts as empty). -/
def scoresLenAt (s : StoreState) (k spId : Nat) : Option Nat :=
  (perfIn s k spId).map (fun sp => (sp.activityScores.getD []).length)

theorem recLookup_recInsert_self {α : Type} (m : List (Nat × α)) (k : Nat) (v : α) :
    recLookup (recInsert m k v) k = some v := by
  induction m with
  | nil => simp [recInsert, recLookup]
  | cons p rest ih =>
    obtain ⟨a, b⟩ := p
    by_cases h : a = k <;> simp [recInsert, recLookup, h, ih]

theorem recLookup_recInsert_ne {α : Type} (m : List (Nat × α)) (k j : Nat) (v : α)
    (hjk : j ≠ k) : recLookup (recInsert m k v) j = recLookup m j := by
  induction m with
  | nil => simp [recInsert, recLookup, Ne.symm hjk]
  | cons p rest ih =>
    obtain ⟨a, b⟩ := p
    by_cases h : a = k
    · subst h
      simp [recInsert, recLookup, Ne.symm hjk]
    · simp [recInsert, recLookup, h, ih]

theorem find?_updateFirstPerf (l : List StudentPerformance) (spId : Nat)
    (f : StudentPerformance → StudentPerformance) (hf : ∀ sp, (f sp).id = sp.id) :
    (updateFirstPerf l spId f).find? (fun sp => sp.id == spId) =
      (l.find? (fun sp => sp.id == spId)).map f := by
  induction l with
  | nil => simp [updateFirstPerf]
  | cons sp rest ih =>
    by_cases h : sp.id = spId
    · simp [updateFirstPerf, h, List.find?_cons_of_pos, hf]
    · have hb : (sp.id == spId) = false := by simp [h]
      have hbf : ((f sp).id == spId) = false := by simp [hf, h]
      simp [updateFirstPerf, hb, List.find?_cons_of_neg, ih]

theorem getElem?_updateFirstPerf (l : List StudentPerformance) (spId : Nat)
    (f : StudentPerformance → StudentPerformance) (i : Nat) (sq : StudentPerformance)
    (h : (updateFirstPerf l spId f)[i]? = some sq) :
    ∃ sp, l[i]? = some sp ∧ (sq = sp ∨ sq = f sp) := by
  induction l generalizing i with
  | nil => simp [updateFirstPerf] at h
  | cons sp rest ih =>
    by_cases hb : sp.id = spId
    · have hbt : (sp.id == spId) = true := by simp [hb]
      simp only [updateFirstPerf, hbt, if_true] at h
      cases i with
      | zero =>
        simp only [List.getElem?_cons_zero, Option.some_inj] at h
        exact ⟨sp, by simp, Or.inr h.symm⟩
      | succ n =>
        simp only [List.getElem?_cons_succ] at h
        exact ⟨sq, by simpa using h, Or.inl rfl⟩
    · have hbt : (sp.id == spId) = false := by simp [hb]
      simp only [updateFirstPerf, hbt, if_false, Bool.false_eq_true] at h
      cases i with
      | zero =>
        simp only [List.getElem?_cons_zero, Option.some_inj] at h
        exact ⟨sp, by simp, Or.inl h.symm⟩
      | succ n =>
        simp only [List.getElem?_cons_succ] at h
        obtain ⟨sp0, h0, h1⟩ := ih n h
        exact ⟨sp0, by simpa using h0, h1⟩

/-- No counter is materialized from `undefined`: whichever counter is `none`
in `sp` is still `none` in `sq`. -/
def noMaterialize (sp sq : StudentPerformance) : Prop :=
  (sp.activityPoints = none → sq.activityPoints = none) ∧
  (sp.missingHomeworks = none → sq.missingHomeworks = none) ∧
  (sp.loudnessWarnings = none → sq.loudnessWarnings = none)

theorem noMaterialize_refl (sp : StudentPerformance) : noMaterialize sp sp :=
  ⟨id, id, id⟩

theorem noMaterialize_addPointsFn (p : Int) (sp : StudentPerformance) :
    noMaterialize sp (addPointsFn p sp) := by
  cases h : sp.activityPoints <;> simp [noMaterialize, addPointsFn, h]

theorem noMaterialize_addLoudnessFn (sp : StudentPerformance) :
    noMaterialize sp (addLoudnessFn sp) := by
  cases h : sp.loudnessWarnings <;> simp [noMaterialize, addLoudnessFn, h]

theorem noMaterialize_deleteLoudnessFn (sp : StudentPerformance) :
    noMaterialize sp (deleteLoudnessFn sp) := by
  cases h : sp.loudnessWarnings <;> simp [noMaterialize, deleteLoudnessFn, h]

theorem noMaterialize_addMissingFn (amount : Int) (sp : StudentPerformance) :
    noMaterialize sp (addMissingFn amount sp) := by
  cases h : sp.missingHomeworks <;> simp [noMaterialize, addMissingFn, h]

theorem noMaterialize_deleteMissingFn (sp : StudentPerformance) :
    noMaterialize sp (deleteMissingFn sp) := by
  cases h : sp.missingHomeworks <;> simp [noMaterialize, deleteMissingFn, h]

theorem noMaterialize_deleteScoreFn (scoreId : Nat) (sp : StudentPerformance) :
    noMaterialize sp (deleteScoreFn scoreId sp) :=
  ⟨id, id, id⟩

theorem id_addPointsFn (p : Int) (sp : StudentPerformance) :
    (addPointsFn p sp).id = sp.id := by
  cases h : sp.activityPoints <;> simp [addPointsFn, h]

theorem id_addLoudnessFn (sp : StudentPerformance) :
    (addLoudnessFn sp).id = sp.id := by
  cases h : sp.loudnessWarnings <;> simp [addLoudnessFn, h]

theorem id_deleteLoudnessFn (sp : StudentPerformance) :
    (deleteLoudnessFn sp).id = sp.id := by
  cases h : sp.loudnessWarnings <;> simp [deleteLoudnessFn, h]

theorem id_addMissingFn (amount : Int) (sp : StudentPerformance) :
    (addMissingFn amount sp).id = sp.id := by
  cases h : sp.missingHomeworks <;> simp [addMissingFn, h]

theorem id_deleteMissingFn (sp : StudentPerformance) :
    (deleteMissingFn sp).id = sp.id := by
  cases h : sp.missingHomeworks <;> simp [deleteMissingFn, h]

theorem id_deleteScoreFn (scoreId : Nat) (sp : StudentPerformance) :
    (deleteScoreFn scoreId sp).id = sp.id := rfl

/-- The record located by `find` after an optimistic step on class `classId`
is the image under `f` of the record located before (id-preserving `f`). -/
theorem perfIn_optimisticStep (s s1 : StoreState) (classId spId : Nat)
    (f : StudentPerformance → StudentPerformance) (hf : ∀ sp, (f sp).id = sp.id)
    (h : Adv.optimisticStep s classId spId f = some s1) :
    perfIn s1 classId spId = (perfIn s classId spId).map f := by
  unfold Adv.optimisticStep at h
  cases hc : recLookup s.classes classId with
  | none => rw [hc] at h; exact absurd h (by simp)
  | some c =>
    rw [hc] at h
    simp only [Option.some_inj] at h
    subst h
    simp only [perfIn, recLookup_recInsert_self, hc, Option.bind_some]
    cases hsp : c.studentsPerformance with
    | none => simp [Class.updatePerf, hsp]
    | some l =>
      simp [Class.updatePerf, hsp, find?_updateFirstPerf l spId f hf]

/-- After an optimistic step, the performance at any class/index position is
either the one already there or its image under `f`; with an
`f` that materializes nothing, no counter is materialized anywhere. -/
theorem noMaterialize_optimisticStep (s s1 : StoreState) (classId spId : Nat)
    (f : StudentPerformance → StudentPerformance) (hfm : ∀ sp, noMaterialize sp (f sp))
    (h : Adv.optimisticStep s classId spId f = some s1)
    (k i : Nat) (sp sq : StudentPerformance)
    (hs : perfAtIdx s k i = some sp) (hs1 : perfAtIdx s1 k i = some sq) :
    noMaterialize sp sq := by
  unfold Adv.optimisticStep at h
  cases hc : recLookup s.classes classId with
  | none => rw [hc] at h; exact absurd h (by simp)
  | some c =>
    rw [hc] at h
    simp only [Option.some_inj] at h
    subst h
    by_cases hk : k = classId
    · subst hk
      simp only [perfAtIdx, recLookup_recInsert_self, Option.some_bind] at hs1
      rw [perfAtIdx, hc] at hs
      simp only [Option.some_bind] at hs
      cases hsp : c.studentsPerformance with
      | none => rw [hsp] at hs; exact absurd hs (by simp)
      | some l =>
        rw [hsp] at hs
        simp only [Option.some_bind] at hs
        rw [Class.updatePerf, hsp] at hs1
        simp only [Option.some_bind] at hs1
        obtain ⟨sp0, h0, h1⟩ := getElem?_updateFirstPerf l spId f i sq hs1
        rw [hs] at h0
        rw [Option.some_inj] at h0
        subst h0
        cases h1 with
        | inl he => rw [he]; exact noMaterialize_refl sp
        | inr he => rw [he]; exact hfm sp
    · rw [perfAtIdx] at hs1
      simp only [recLookup_recInsert_ne s.classes classId k _ hk] at hs1
      rw [perfAtIdx] at hs
      rw [hs1] at hs
      rw [Option.some_inj] at hs
      rw [hs]
      exact noMaterialize_refl sp

/-- The key list of a JS record modelled as an association list. -/
def keys {α : Type} (m : List (Nat × α)) : List Nat :=
  m.map Prod.fst

theorem keys_recInsert {α : Type} (m : List (Nat × α)) (k : Nat) (v : α) :
    keys (recInsert m k v) = if k ∈ keys m then keys m else keys m ++ [k] := by
  induction m with
  | nil => simp [recInsert, keys]
  | cons p rest ih =>
    obtain ⟨a, b⟩ := p
    by_cases hak : a = k
    · subst hak
      simp [recInsert, keys]
    · simp only [recInsert, if_neg hak, keys, List.map_cons] at ih ⊢
      rw [ih]
      have hmm : (k ∈ a :: List.map Prod.fst rest) ↔ (k ∈ List.map Prod.fst rest) := by
        simp [List.mem_cons, Ne.symm hak]
      by_cases hk : k ∈ List.map Prod.fst rest
      · simp [hk, hmm]
      · simp [hk, hmm]

theorem keys_nodup_recInsert {α : Type} (m : List (Nat × α)) (k : Nat) (v : α)
    (h : (keys m).Nodup) : (keys (recInsert m k v)).Nodup := by
  rw [keys_recInsert]
  by_cases hk : k ∈ keys m
  · simp [hk, h]
  · simp only [if_neg hk]
    simp [List.nodup_append, h, hk]

theorem recLookup_foldl_isSome (cs : List Class) (init : List (Nat × Class)) (k : Nat) :
    (recLookup (cs.foldl (fun m c => recInsert m c.id c) init) k).isSome =
      ((recLookup init k).isSome || cs.any (fun c => c.id == k)) := by
  induction cs generalizing init with
  | nil => simp
  | cons c cs ih =>
    simp only [List.foldl_cons, List.any_cons]
    rw [ih]
    by_cases h : k = c.id
    · subst h
      simp [recLookup_recInsert_self]
    · rw [recLookup_recInsert_ne _ _ _ _ h]
      have hb : (c.id == k) = false := by
        simp only [beq_eq_false_iff_ne]
        exact fun e => h e.symm
      simp [hb]

theorem recLookup_foldl_keyed (cs : List Class) (init : List (Nat × Class))
    (hinit : ∀ k c, recLookup init k = some c → c.id = k) :
    ∀ k c, recLookup (cs.foldl (fun m c => recInsert m c.id c) init) k = some c → c.id = k := by
  induction cs generalizing init with
  | nil => exact hinit
  | cons c0 cs ih =>
    intro k c h
    refine ih (recInsert init c0.id c0) ?_ k c h
    intro k1 c1 h1
    by_cases hk : k1 = c0.id
    · subst hk
      rw [recLookup_recInsert_self] at h1
      rw [Option.some_inj] at h1
      rw [← h1]
    · rw [recLookup_recInsert_ne _ _ _ _ hk] at h1
      exact hinit k1 c1 h1

theorem keys_nodup_foldl (cs : List Class) (init : List (Nat × Class))
    (h : (keys init).Nodup) :
    (keys (cs.foldl (fun m c => recInsert m c.id c) init)).Nodup := by
  induction cs generalizing init with
  | nil => exact h
  | cons c cs ih => exact ih _ (keys_nodup_recInsert _ _ _ h)

/-! Concrete fixtures used by counterexamples and witnesses. -/

def exStudent : Student :=
  { id := 7, firstName := "Ana", lastName := "Pop" }

def exSchool : School :=
  { id := 4, name := "S1" }

def exScore : ActivityScore :=
  { id := 10, score := 4 }

/-- A performance with all three counters in their interesting shapes:
points defined (3), missing homeworks defined (5), loudness undefined. -/
def exPerf : StudentPerformance :=
  { id := 2, studentId := "7", classId := 1, student := exStudent,
    activityScores := some [exScore], activityPoints := some 3,
    missingHomeworks := some 5, loudnessWarnings := none }

/-- A performance with every optional field undefined. -/
def exPerfBare : StudentPerformance :=
  { id := 2, studentId := "7", classId := 1, student := exStudent,
    activityScores := none, activityPoints := none,
    missingHomeworks := none, loudnessWarnings := none }

def exClass : Class :=
  { id := 1, schoolYear := 2023, label := "5A", school := exSchool,
    students := none, studentsPerformance := some [exPerf] }

def exClassBare : Class :=
  { id := 1, schoolYear := 2023, label := "5A", school := exSchool,
    students := none, studentsPerformance := some [exPerfBare] }

/-- A stale class whose identifier (99) never appears in later responses. -/
def exStaleClass : Class :=
  { id := 99, schoolYear := 2022, label := "9Z", school := exSchool,
    students := none, studentsPerformance := none }

/-- A logged-in store state caching `exClass` under key 1. -/
def exState : StoreState :=
  { isAuthenticated := some true, authToken := some "tk", classes := [(1, exClass)],
    isLoading := false, isInitialized := true, error := none,
    schoolsEntries := none, schoolsOrder := none, schoolsIsLoading := none,
    isOperationLoading := none, authHeader := AuthHeader.bearer "tk" }

/-- Like `exState` but caching the all-undefined performance. -/
def exStateBare : StoreState :=
  { exState with classes := [(1, exClassBare)] }

/-- Like `exState` but caching only the stale class under key 99. -/
def exStaleState : StoreState :=
  { exState with classes := [(99, exStaleClass)] }

/-- The earliest revision's store state caching only the stale class. -/
def exCSState : CS.State :=
  { classes := [(99, exStaleClass)], isLoading := false, isInitialized := true }

/-- `exState` after the optimistic step of `addActivityPoints` with delta 3. -/
def exStateAfterPoints : StoreState :=
  { exState with classes := [(1, { exClass with studentsPerformance := some [{ exPerf with activityPoints := some 6 }] })] }

def err401 : ReqError := { response := some { status := 401 } }

def err500 : ReqError := { response := some { status := 500 } }

/-- A transport failure carrying no HTTP response. -/
def errNet : ReqError := { response := none }

/-!  The claims. -/

/-- Claim C1, counterexample: with `immediate = true` and a network failure
carrying status 401, the store state after the failure does NOT equal the state
immediately after the optimistic mutation: the guard's demotion flips the
authentication flag (true after the optimistic mutation, false after the
failure), so the claimed full-state equality fails for 401 failures. -/
theorem optimistic_failure_demotes_auth :
    ((Adv.optimisticMutation (Adv.OptimisticAction.addActivityPoints 1 2 3) exState).map
        StoreState.isAuthenticated = some (some true)) ∧
    ((Adv.runImmediateFailed (Adv.OptimisticAction.addActivityPoints 1 2 3) exState err401).map
        (fun r => r.1.isAuthenticated) = some (some false)) := by
  constructor
  · decide
  · decide

/-- Claim C1, amended: for every optimistic action invoked with
`immediate = true` whose network call fails with any error `e`, the optimistic
local mutation remains in place with no rollback or compensation: the run ends
in the optimistically mutated state passed through the guard's catch, which
re-raises `e` unchanged and can touch nothing but the authentication flag
(class cache, token, flags and error slot all equal the post-mutation state);
for any non-401 failure the final state is exactly the post-mutation state. -/
theorem optimistic_failure_keeps_mutation (a : Adv.OptimisticAction)
    (s s1 : StoreState) (e : ReqError)
    (h : Adv.optimisticMutation a s = some s1) :
    Adv.runImmediateFailed a s e = some (guardUnauthorizedRequestCatch s1 e) ∧
    (guardUnauthorizedRequestCatch s1 e).2 = e ∧
    (guardUnauthorizedRequestCatch s1 e).1.classes = s1.classes ∧
    (guardUnauthorizedRequestCatch s1 e).1.authToken = s1.authToken ∧
    (guardUnauthorizedRequestCatch s1 e).1.isLoading = s1.isLoading ∧
    (guardUnauthorizedRequestCatch s1 e).1.isInitialized = s1.isInitialized ∧
    (guardUnauthorizedRequestCatch s1 e).1.error = s1.error ∧
    (e.statusOf ≠ some 401 → guardUnauthorizedRequestCatch s1 e = (s1, e)) := by
  refine ⟨by simp [Adv.runImmediateFailed, h], ?_, ?_, ?_, ?_, ?_, ?_, ?_⟩ <;>
    unfold guardUnauthorizedRequestCatch
  · split_ifs <;> rfl
  · split_ifs <;> rfl
  · split_ifs <;> rfl
  · split_ifs <;> rfl
  · split_ifs <;> rfl
  · split_ifs <;> rfl
  · intro hne
    rw [if_neg hne]

/-- Witness for C1 at concrete inputs: `addActivityPoints 1 2 3` on `exState`
optimistically yields `exStateAfterPoints`; a 500 failure then leaves the
state exactly there and propagates the error unchanged. -/
theorem optimistic_failure_keeps_mutation_witness :
    Adv.runImmediateFailed (Adv.OptimisticAction.addActivityPoints 1 2 3) exState err500
      = some (guardUnauthorizedRequestCatch exStateAfterPoints err500) ∧
    guardUnauthorizedRequestCatch exStateAfterPoints err500 = (exStateAfterPoints, err500) := by
  have h := optimistic_failure_keeps_mutation
    (Adv.OptimisticAction.addActivityPoints 1 2 3) exState exStateAfterPoints err500 (by decide)
  exact ⟨h.1, h.2.2.2.2.2.2.2 (by decide)⟩

/-- Claim C2, code defect: on a cached performance whose `missingHomeworks`
counter is defined (5), the `immediate = true` branch of
`deleteLastMissingHomework` INCREMENTS the counter to 6 instead of
decrementing it to 4 — the source performs `sp.missingHomeworks += 1`
(`src/unnamed/part_000` line 627) although the action issues an HTTP DELETE and
the sibling `deleteLastLoudnessWarning` decrements. The undefined-counter half
of the claim does hold: an undefined counter stays undefined. -/
theorem deleteLastMissingHomework_increments :
    (missingAt exState 1 2 = some 5) ∧
    ((Adv.deleteLastMissingHomeworkOptimistic exState 1 2).map (fun s1 => missingAt s1 1 2)
      = some (some 6)) ∧
    ((Adv.deleteLastMissingHomeworkOptimistic exStateBare 1 2).map (fun s1 => missingAt s1 1 2)
      = some none) := by
  refine ⟨by decide, by decide, by decide⟩

/-- Claim C3, counterexample: `addActivityScore` performs no synchronous local
mutation before its network call: on a cached class and performance the
pre-network state is the input state unchanged, and the activity-score list
does not grow by one tentative entry, contradicting the claimed client-only
append before the network call resolves. -/
theorem addActivityScore_no_optimistic_append :
    (Adv.addActivityScorePhase1 exState 1 2 7 = exState) ∧
    ¬ (scoresLenAt (Adv.addActivityScorePhase1 exState 1 2 7) 1 2
        = (scoresLenAt exState 1 2).map (· + 1)) := by
  constructor
  · rfl
  · decide

/-- Claim C3, amended: the `Store` interface declares an `immediate` flag for
`addActivityScore` (defaulting like its siblings), but the implementation
ignores it and applies no optimistic mutation: the state before the network
call is the input state, and the entry appended to the located performance's
score list is the server-returned entry, appended only in the success handler. -/
theorem addActivityScore_appends_on_success (s : StoreState) (classId spId : Nat)
    (score : Int) (d : ActivityScore) (sp : StudentPerformance)
    (h : perfIn s classId spId = some sp) :
    (Adv.addActivityScorePhase1 s classId spId score = s) ∧
    ((Adv.addActivityScoreSuccess s classId spId d).map
        (fun s1 => scoresListAt s1 classId spId)
      = some (some (sp.activityScores.getD [] ++ [d]))) := by
  refine ⟨rfl, ?_⟩
  obtain ⟨c, hc, hfind⟩ := Option.bind_eq_some.mp h
  have hsucc : Adv.addActivityScoreSuccess s classId spId d =
      some { s with classes := recInsert s.classes classId (c.updatePerf spId (fun sp => { sp with activityScores := some (sp.activityScores.getD [] ++ [d]) })) } := by
    unfold Adv.addActivityScoreSuccess
    rw [hc]
    simp only [hfind]
  have hstep : Adv.optimisticStep s classId spId
      (fun sp => { sp with activityScores := some (sp.activityScores.getD [] ++ [d]) }) =
      some { s with classes := recInsert s.classes classId (c.updatePerf spId (fun sp => { sp with activityScores := some (sp.activityScores.getD [] ++ [d]) })) } := by
    unfold Adv.optimisticStep
    rw [hc]
  have hperf := perfIn_optimisticStep s _ classId spId
    (fun sp => { sp with activityScores := some (sp.activityScores.getD [] ++ [d]) })
    (fun sp => rfl) hstep
  rw [hsucc]
  simp only [Option.map_some']
  rw [scoresListAt, hperf, h]
  simp

/-- Witness for C3 at concrete inputs: on `exState` the pre-network state is
unchanged, and the success handler appends the server entry to `exPerf`'s
single-element score list. -/
theorem addActivityScore_appends_on_success_witness :
    (Adv.addActivityScorePhase1 exState 1 2 7 = exState) ∧
    ((Adv.addActivityScoreSuccess exState 1 2 { id := 11, score := 7 }).map
        (fun s1 => scoresListAt s1 1 2)
      = some (some (exPerf.activityScores.getD [] ++ [{ id := 11, score := 7 }]))) :=
  addActivityScore_appends_on_success exState 1 2 7 { id := 11, score := 7 } exPerf (by decide)

/-- Claim C4: for every cached performance whose `activityPoints` is 3, the
`immediate = true` optimistic branch of `addActivityPoints` with delta 2 sets
`activityPoints` to 5 in the local cache — this is the pre-network step alone,
so the value is present before any network response is observed. -/
theorem addActivityPoints_three_plus_two (s : StoreState) (classId spId : Nat)
    (sp : StudentPerformance) (h : perfIn s classId spId = some sp)
    (hp : sp.activityPoints = some 3) :
    (Adv.addActivityPointsOptimistic s classId spId 2).map (fun s1 => pointsAt s1 classId spId)
      = some (some 5) := by
  obtain ⟨c, hc, hfind⟩ := Option.bind_eq_some.mp h
  have hstep : Adv.addActivityPointsOptimistic s classId spId 2 =
      some { s with classes := recInsert s.classes classId (c.updatePerf spId (addPointsFn 2)) } := by
    unfold Adv.addActivityPointsOptimistic Adv.optimisticStep
    rw [hc]
  have hperf := perfIn_optimisticStep s _ classId spId (addPointsFn 2) (id_addPointsFn 2) hstep
  rw [hstep]
  simp only [Option.map_some']
  rw [pointsAt, hperf, h]
  simp [addPointsFn, hp]

/-- Witness for C4 at concrete inputs: `exPerf` has `activityPoints = 3`; the
optimistic step with delta 2 yields 5. -/
theorem addActivityPoints_three_plus_two_witness :
    (Adv.addActivityPointsOptimistic exState 1 2 2).map (fun s1 => pointsAt s1 1 2)
      = some (some 5) :=
  addActivityPoints_three_plus_two exState 1 2 exPerf (by decide) (by decide)

/-- Claim C5: each counter is typed `Option Int` (absent or numeric), and no
`immediate = true` optimistic action materializes a counter from undefined:
for every optimistic action, every class key and every performance position,
a counter that is `none` before the optimistic step is still `none` after it. -/
theorem optimistic_never_materializes (a : Adv.OptimisticAction) (s s1 : StoreState)
    (h : Adv.optimisticMutation a s = some s1) (k i : Nat) (sp sq : StudentPerformance)
    (hs : perfAtIdx s k i = some sp) (hs1 : perfAtIdx s1 k i = some sq) :
    noMaterialize sp sq := by
  cases a with
  | deleteActivityScore classId spId scoreId =>
    exact noMaterialize_optimisticStep s s1 classId spId _
      (noMaterialize_deleteScoreFn scoreId) h k i sp sq hs hs1
  | addActivityPoints classId spId points =>
    exact noMaterialize_optimisticStep s s1 classId spId _
      (noMaterialize_addPointsFn points) h k i sp sq hs hs1
  | addLoudnessWarning classId spId =>
    exact noMaterialize_optimisticStep s s1 classId spId _
      noMaterialize_addLoudnessFn h k i sp sq hs hs1
  | deleteLastLoudnessWarning classId spId =>
    exact noMaterialize_optimisticStep s s1 classId spId _
      noMaterialize_deleteLoudnessFn h k i sp sq hs hs1
  | addMissingHomework classId spId amount =>
    exact noMaterialize_optimisticStep s s1 classId spId _
      (noMaterialize_addMissingFn amount) h k i sp sq hs hs1
  | deleteLastMissingHomework classId spId =>
    exact noMaterialize_optimisticStep s s1 classId spId _
      noMaterialize_deleteMissingFn h k i sp sq hs hs1

/-- Witness for C5 at concrete inputs: on the all-undefined performance,
`addActivityPoints` leaves the state unchanged, and every counter that was
undefined is still undefined. -/
theorem optimistic_never_materializes_witness : noMaterialize exPerfBare exPerfBare :=
  optimistic_never_materializes (Adv.OptimisticAction.addActivityPoints 1 2 3)
    exStateBare exStateBare (by decide) 1 0 exPerfBare exPerfBare (by decide) (by decide)

/-- Claim C6: the guard's catch branch always re-raises the original failure
unchanged; when the failure carries HTTP status 401 it sets the authentication
flag to false and changes nothing else; for any other failure (other status,
or a non-HTTP error with no response) it leaves the whole state untouched. -/
theorem guard_catch_behavior (s : StoreState) (e : ReqError) :
    ((guardUnauthorizedRequestCatch s e).2 = e) ∧
    (e.statusOf = some 401 →
      guardUnauthorizedRequestCatch s e = ({ s with isAuthenticated := some false }, e)) ∧
    (e.statusOf ≠ some 401 → guardUnauthorizedRequestCatch s e = (s, e)) := by
  refine ⟨?_, ?_, ?_⟩
  · unfold guardUnauthorizedRequestCatch
    split_ifs <;> rfl
  · intro h401
    unfold guardUnauthorizedRequestCatch
    rw [if_pos h401]
  · intro hne
    unfold guardUnauthorizedRequestCatch
    rw [if_neg hne]

/-- Witness for C6 at concrete inputs: a 401 failure flips the flag and
re-raises; a 500 failure and a responseless transport failure leave the state
untouched and re-raise. -/
theorem guard_catch_behavior_witness :
    guardUnauthorizedRequestCatch exState err401
      = ({ exState with isAuthenticated := some false }, err401) ∧
    guardUnauthorizedRequestCatch exState err500 = (exState, err500) ∧
    guardUnauthorizedRequestCatch exState errNet = (exState, errNet) := by
  refine ⟨?_, ?_, ?_⟩
  · exact (guard_catch_behavior exState err401).2.1 (by decide)
  · exact (guard_catch_behavior exState err500).2.2 (by decide)
  · exact (guard_catch_behavior exState errNet).2.2 (by decide)

/-- Claim C7, code defect: the token/flag consistency is violated by the
guard's 401 demotion path. From the state after `updateToken` (flag true,
token stored), a guarded request failing with 401 leaves the flag false while
the token is still stored — the two change independently, and the reachable
state has `isAuthenticated = false` with a present `authToken`. -/
theorem guard_demotion_leaves_token :
    ((updateToken initialState "tk").isAuthenticated = some true) ∧
    ((updateToken initialState "tk").authToken = some "tk") ∧
    ((guardUnauthorizedRequestCatch (updateToken initialState "tk") err401).1.isAuthenticated
      = some false) ∧
    ((guardUnauthorizedRequestCatch (updateToken initialState "tk") err401).1.authToken
      = some "tk") := by
  refine ⟨by decide, by decide, by decide, by decide⟩

/-- Claim C8, counterexample: in the earliest revision
(`src/src/stores/classStore.tsx`) a successful `fetch` does not discard the
prior cache: with a prior entry under key 99 and a server response containing
only the class with identifier 1, the stale entry is still present afterward,
so "every entry present before the fetch discarded" fails for that cited
`fetch`. -/
theorem classStore_fetch_keeps_stale_entry :
    ([exClass].map Class.id = [1]) ∧
    (recLookup (CS.fetchApplyResponse exCSState [exClass]).classes 99 = some exStaleClass) := by
  refine ⟨by decide, by decide⟩

/-- Claim C8, amended: for the main store's `fetch` (`src/store.ts`, and the
identical advanced revision) the claim holds: after a successful fetch a key is
present in the class cache iff some returned class bears that identifier
(prior entries are discarded), every entry is keyed by its own class's
identifier, the key list is duplicate-free (exactly one entry per identifier),
`isInitialized` becomes true and the loading flag is cleared. The earliest
revision's `fetch` instead merges into the existing map. -/
theorem fetch_replaces_cache (s : StoreState) (cs : List Class) :
    (∀ k, (recLookup (fetchApplyResponse s cs).classes k).isSome
        = cs.any (fun c => c.id == k)) ∧
    (∀ k c, recLookup (fetchApplyResponse s cs).classes k = some c → c.id = k) ∧
    ((keys (fetchApplyResponse s cs).classes).Nodup) ∧
    ((fetchApplyResponse s cs).isInitialized = true) ∧
    ((fetchApplyResponse s cs).isLoading = false) := by
  refine ⟨?_, ?_, ?_, rfl, rfl⟩
  · intro k
    have h := recLookup_foldl_isSome cs [] k
    simpa [fetchApplyResponse, recLookup] using h
  · intro k c hkc
    exact recLookup_foldl_keyed cs [] (by intro k1 c1 h1; simp [recLookup] at h1) k c hkc
  · exact keys_nodup_foldl cs [] (by simp [keys])

/-- Witness for C8 at concrete inputs: fetching `[exClass]` over a cache
holding only the stale key 99 discards the stale entry, keeps key 1, and the
entry under 1 is keyed by its own identifier. -/
theorem fetch_replaces_cache_witness :
    ((recLookup (fetchApplyResponse exStaleState [exClass]).classes 99).isSome = false) ∧
    ((recLookup (fetchApplyResponse exStaleState [exClass]).classes 1).isSome = true) ∧
    (exClass.id = 1) := by
  have h := fetch_replaces_cache exStaleState [exClass]
  refine ⟨?_, ?_, ?_⟩
  · rw [h.1 99]
    decide
  · rw [h.1 1]
    decide
  · exact h.2.1 1 exClass (by decide)

/-- Claim C9: `logout` changes only the authentication flag, the stored token
and the outbound bearer header; the class cache, `isInitialized`, the schools
cache, the loading flags and the error slot are untouched, so every cached
class record remains addressable after logout. -/
theorem logout_frame (s : StoreState) :
    ((logout s).classes = s.classes) ∧
    ((logout s).isInitialized = s.isInitialized) ∧
    ((logout s).isLoading = s.isLoading) ∧
    ((logout s).error = s.error) ∧
    ((logout s).schoolsEntries = s.schoolsEntries) ∧
    ((logout s).schoolsOrder = s.schoolsOrder) ∧
    ((logout s).schoolsIsLoading = s.schoolsIsLoading) ∧
    ((logout s).isOperationLoading = s.isOperationLoading) ∧
    ((logout s).isAuthenticated = some false) ∧
    ((logout s).authToken = none) ∧
    ((logout s).authHeader = AuthHeader.disabled) :=
  ⟨rfl, rfl, rfl, rfl, rfl, rfl, rfl, rfl, rfl, rfl, rfl⟩

/-- Claim C10: `fetchById`'s success handler writes a truthy body under the
key `id` taken from the call's argument: the entry lands at key `id`, every
other key — in particular the class's own identifier — is untouched, and when
the returned class's identifier differs from `id` the stored class's
identifier disagrees with its cache key. -/
theorem fetchById_keyed_by_argument (s : StoreState) (id : Nat) (c : Class)
    (h : c.id ≠ id) :
    (recLookup (fetchByIdApplyResponse s id (some c)).classes id = some c) ∧
    (∀ k, k ≠ id → recLookup (fetchByIdApplyResponse s id (some c)).classes k
        = recLookup s.classes k) ∧
    ((recLookup (fetchByIdApplyResponse s id (some c)).classes id).map Class.id ≠ some id) := by
  refine ⟨?_, ?_, ?_⟩
  · simp [fetchByIdApplyResponse, recLookup_recInsert_self]
  · intro k hk
    simp [fetchByIdApplyResponse, recLookup_recInsert_ne _ _ _ _ hk]
  · simp [fetchByIdApplyResponse, recLookup_recInsert_self, h]

/-- Witness for C10 at concrete inputs: a response with identifier 99 fetched
as id 5 lands under key 5, and the stored identifier (99) disagrees with the
key. -/
theorem fetchById_keyed_by_argument_witness :
    (recLookup (fetchByIdApplyResponse exState 5 (some exStaleClass)).classes 5
      = some exStaleClass) ∧
    ((recLookup (fetchByIdApplyResponse exState 5 (some exStaleClass)).classes 5).map Class.id
      ≠ some 5) := by
  have h := fetchById_keyed_by_argument exState 5 exStaleClass (by decide)
  exact ⟨h.1, h.2.2⟩

end StudentManager
